import Mathlib

/-!
Shallow embedding of the LeadConnector calendar core:
`src/calendars/leadconnector/book.py` and
`src/calendars/leadconnector/leadconnector.py`.

Strings are Lean `String`s; the regex substitutions of `parse_human_datetime`
are embedded as left-to-right scanners over `List Char` implementing exactly
the semantics of each Python regex (leftmost match, greedy quantifiers,
scan resumes after each replacement).  The scanners use a `Nat` fuel argument
that is always instantiated with the length of the input list; every step
consumes at least one character, so the fuel never runs out.
-/

/-- ASCII characters matched by Python's `\s`. -/
def isSpaceChar (c : Char) : Bool :=
  c = ' ' || c = '\t' || c = '\n' || c = '\r' || c = '\x0b' || c = '\x0c'

/-- Characters matched by Python's `\d` (ASCII input). -/
def isDigitChar (c : Char) : Bool :=
  '0' ≤ c && c ≤ '9'

/-- Characters matched by Python's `\w` (ASCII input); `\b` is a transition
between a `\w` and a non-`\w` position. -/
def isWordChar (c : Char) : Bool :=
  c.isAlpha || isDigitChar c || c = '_'

/-- `\b` holds after the previously scanned character (or at string start). -/
def boundaryAfterPrev : Option Char → Bool
  | none => true
  | some c => !isWordChar c

/-- `\b` holds before the remaining characters (next char non-word or end). -/
def noWordAhead : List Char → Bool
  | [] => true
  | c :: _ => !isWordChar c

/-- Case-insensitive `AM|PM` on a pair of characters. -/
def isAmPmPair (p m : Char) : Bool :=
  (p.toLower = 'a' || p.toLower = 'p') && m.toLower = 'm'

/-- Case-insensitive `st|nd|rd|th` on a pair of characters. -/
def isOrdinalPair (a b : Char) : Bool :=
  (a.toLower = 's' && b.toLower = 't') || (a.toLower = 'n' && b.toLower = 'd') ||
  (a.toLower = 'r' && b.toLower = 'd') || (a.toLower = 't' && b.toLower = 'h')

/-- ASCII uppercase of a string (Python `str.upper` / `IGNORECASE` on the
ASCII inputs involved). -/
def upperStr (s : String) : String :=
  String.mk (s.toList.map Char.toUpper)

/-- `str.strip()` on ASCII whitespace. -/
def trimList (l : List Char) : List Char :=
  ((l.dropWhile isSpaceChar).reverse.dropWhile isSpaceChar).reverse

def trimStr (s : String) : String :=
  String.mk (trimList s.toList)

/-- Last `n` characters of a string (the end-anchored regex match). -/
def takeRightStr (s : String) (n : Nat) : String :=
  String.mk (s.toList.drop (s.length - n))

/-- All but the last `n` characters of a string. -/
def dropRightStr (s : String) (n : Nat) : String :=
  String.mk (s.toList.take (s.length - n))

/-- `re.sub(r"\s+", " ", ·)`: collapse whitespace runs to single spaces.
The flag records whether the previous character was inside a run. -/
def collapseWs : Bool → List Char → List Char
  | _, [] => []
  | inRun, c :: rest =>
    if isSpaceChar c then
      if inRun then collapseWs true rest else ' ' :: collapseWs true rest
    else c :: collapseWs false rest

/-- Step 1 of `parse_human_datetime`:
`re.sub(r"\s+", " ", dt_str).strip()` — collapse whitespace runs to single
spaces and trim the ends. -/
def normWs (s : String) : String :=
  String.mk (trimList (collapseWs false s.toList))

/-- Step 2 scanner: `re.sub(r"(\d+)(st|nd|rd|th)", r"\1", s, IGNORECASE)`.
At a digit the greedy `\d+` takes the maximal run; a match requires the two
following characters to be an ordinal suffix (no shorter digit run can match,
since the suffix cannot start with a digit). -/
def scanOrdinal : Nat → List Char → List Char
  | 0, l => l
  | _ + 1, [] => []
  | fuel + 1, c :: rest =>
    if isDigitChar c then
      let run := c :: rest.takeWhile isDigitChar
      match rest.dropWhile isDigitChar with
      | a :: b :: rest2 =>
        if isOrdinalPair a b then run ++ scanOrdinal fuel rest2
        else run ++ scanOrdinal fuel (a :: b :: rest2)
      | other => run ++ scanOrdinal fuel other
    else c :: scanOrdinal fuel rest

def stripOrdinals (s : String) : String :=
  String.mk (scanOrdinal s.toList.length s.toList)

/-- Step 3: `s.replace(",", "")`. -/
def removeCommas (s : String) : String :=
  String.mk (s.toList.filter (· ≠ ','))

/-- Step 4 scanner: `re.sub(r"(\d)(AM|PM)\b", r"\1 \2", s, IGNORECASE)` —
insert a space between a digit and an immediately following meridiem. -/
def scanAmPmSpace : Nat → List Char → List Char
  | 0, l => l
  | _ + 1, [] => []
  | fuel + 1, c :: rest =>
    if isDigitChar c then
      match rest with
      | p :: m :: rest2 =>
        if isAmPmPair p m && noWordAhead rest2 then
          c :: ' ' :: p :: m :: scanAmPmSpace fuel rest2
        else c :: scanAmPmSpace fuel rest
      | _ => c :: scanAmPmSpace fuel rest
    else c :: scanAmPmSpace fuel rest

def fixAmPmSpace (s : String) : String :=
  String.mk (scanAmPmSpace s.toList.length s.toList)

/-- One-digit-hour arm of the step-5 pattern
`\b(\d{1,2}) (\d{2}) (AM|PM)\b` (tried after the greedy two-digit arm). -/
def match5one : List Char → Option (List Char × List Char)
  | c1 :: ' ' :: m1 :: m2 :: ' ' :: p :: m :: after =>
    if isDigitChar c1 && isDigitChar m1 && isDigitChar m2 && isAmPmPair p m &&
        noWordAhead after then
      some ([c1, ':', m1, m2, ' ', p, m], after)
    else none
  | _ => none

/-- Step-5 match at one position: greedy `\d{1,2}` tries two digits first,
then backtracks to one.  Returns the replacement `\1:\2 \3` and the rest. -/
def match5 (l : List Char) : Option (List Char × List Char) :=
  match l with
  | c1 :: c2 :: ' ' :: m1 :: m2 :: ' ' :: p :: m :: after =>
    if isDigitChar c1 && isDigitChar c2 && isDigitChar m1 && isDigitChar m2 &&
        isAmPmPair p m && noWordAhead after then
      some ([c1, c2, ':', m1, m2, ' ', p, m], after)
    else match5one l
  | _ => match5one l

/-- Step 5 scanner: `re.sub(r"\b(\d{1,2}) (\d{2}) (AM|PM)\b", r"\1:\2 \3", s,
IGNORECASE)`.  `prev` is the previously scanned source character, used for
the leading `\b`; after a replacement, scanning resumes after the match
(whose last character is a meridiem letter, a word character). -/
def scan5 : Nat → Option Char → List Char → List Char
  | 0, _, l => l
  | _ + 1, _, [] => []
  | fuel + 1, prev, c :: rest =>
    if boundaryAfterPrev prev && isDigitChar c then
      match match5 (c :: rest) with
      | some (rep, after) => rep ++ scan5 fuel (some 'M') after
      | none => c :: scan5 fuel (some c) rest
    else c :: scan5 fuel (some c) rest

def fixMissingColon (s : String) : String :=
  String.mk (scan5 s.toList.length none s.toList)

/-- One-digit-hour arm of the step-6 pattern `\b(\d{1,2}) (AM|PM)\b`. -/
def match6one : List Char → Option (List Char × List Char)
  | c1 :: ' ' :: p :: m :: after =>
    if isDigitChar c1 && isAmPmPair p m && noWordAhead after then
      some ([c1, ':', '0', '0', ' ', p, m], after)
    else none
  | _ => none

/-- Step-6 match at one position; replacement is `\1:00 \2`. -/
def match6 (l : List Char) : Option (List Char × List Char) :=
  match l with
  | c1 :: c2 :: ' ' :: p :: m :: after =>
    if isDigitChar c1 && isDigitChar c2 && isAmPmPair p m && noWordAhead after then
      some ([c1, c2, ':', '0', '0', ' ', p, m], after)
    else match6one l
  | _ => match6one l

/-- Step 6 scanner: `re.sub(r"\b(\d{1,2}) (AM|PM)\b", r"\1:00 \2", s,
IGNORECASE)`. -/
def scan6 : Nat → Option Char → List Char → List Char
  | 0, _, l => l
  | _ + 1, _, [] => []
  | fuel + 1, prev, c :: rest =>
    if boundaryAfterPrev prev && isDigitChar c then
      match match6 (c :: rest) with
      | some (rep, after) => rep ++ scan6 fuel (some 'M') after
      | none => c :: scan6 fuel (some c) rest
    else c :: scan6 fuel (some c) rest

def fixHourOnly (s : String) : String :=
  String.mk (scan6 s.toList.length none s.toList)

/-- Time sub-pattern `\d{1,2}:\d{2} (AM|PM)` of step 7, one-digit-hour arm. -/
def matchTime7one : List Char → Option (List Char × List Char)
  | h1 :: ':' :: m1 :: m2 :: ' ' :: p :: m :: after =>
    if isDigitChar h1 && isDigitChar m1 && isDigitChar m2 && isAmPmPair p m then
      some ([h1, ':', m1, m2, ' ', p, m], after)
    else none
  | _ => none

/-- Time sub-pattern of step 7; greedy `\d{1,2}` tries two digits first.
No trailing `\b` is present in the step-7 pattern. -/
def matchTime7 (l : List Char) : Option (List Char × List Char) :=
  match l with
  | h1 :: h2 :: ':' :: m1 :: m2 :: ' ' :: p :: m :: after =>
    if isDigitChar h1 && isDigitChar h2 && isDigitChar m1 && isDigitChar m2 &&
        isAmPmPair p m then
      some ([h1, h2, ':', m1, m2, ' ', p, m], after)
    else matchTime7one l
  | _ => matchTime7one l

/-- Step-7 match at one position: `(\d{4}) (\d{1,2}:\d{2} (AM|PM))` with
replacement `\1 at \2`. -/
def match7 (l : List Char) : Option (List Char × List Char) :=
  match l with
  | d1 :: d2 :: d3 :: d4 :: ' ' :: rest =>
    if isDigitChar d1 && isDigitChar d2 && isDigitChar d3 && isDigitChar d4 then
      match matchTime7 rest with
      | some (timeChars, after) =>
        some (d1 :: d2 :: d3 :: d4 :: ' ' :: 'a' :: 't' :: ' ' :: timeChars, after)
      | none => none
    else none
  | _ => none

/-- Step 7 scanner: `re.sub(r"(\d{4}) (\d{1,2}:\d{2} (AM|PM))", r"\1 at \2",
s, IGNORECASE)` (no word boundaries in this pattern). -/
def scan7 : Nat → List Char → List Char
  | 0, l => l
  | _ + 1, [] => []
  | fuel + 1, c :: rest =>
    match match7 (c :: rest) with
    | some (rep, after) => rep ++ scan7 fuel after
    | none => c :: scan7 fuel rest

def insertAt (s : String) : String :=
  String.mk (scan7 s.toList.length s.toList)

/-- Steps 1–7 of `parse_human_datetime`, in source order. -/
def normalize_datetime_string (dt_str : String) : String :=
  insertAt (fixHourOnly (fixMissingColon (fixAmPmSpace (removeCommas
    (stripOrdinals (normWs dt_str))))))

/-- The alternatives of `tz_regex` in `parse_human_datetime`, in source order.
The regex is end-anchored (`$`) and compiled with `IGNORECASE`; since no
alternative is a suffix of another (full names end in "Time", which contains
no abbreviation), at most one alternative can match a given string, so the
leftmost-match rule reduces to trying the alternatives as case-insensitive
suffixes. -/
def tz_regex_tokens : List String :=
  ["Pacific Standard Time", "Pacific Daylight Time", "Mountain Standard Time",
   "Mountain Daylight Time", "Central Standard Time", "Central Daylight Time",
   "Eastern Standard Time", "Eastern Daylight Time",
   "PST", "PDT", "MST", "MDT", "CST", "CDT", "EST", "EDT"]

/-- `re.search(tz_regex, s, re.IGNORECASE)`: the matched text (group 0),
which is always a suffix of `s` because of the `$` anchor. -/
def findTzToken (s : String) : Option String :=
  tz_regex_tokens.findSome? fun pat =>
    if pat.length ≤ s.length ∧ upperStr (takeRightStr s pat.length) = upperStr pat then
      some (takeRightStr s pat.length)
    else none

/-- `full_tz_map` from `parse_human_datetime`. -/
def full_tz_map : List (String × String) :=
  [("PACIFIC STANDARD TIME", "America/Los_Angeles"),
   ("PACIFIC DAYLIGHT TIME", "America/Los_Angeles"),
   ("MOUNTAIN STANDARD TIME", "America/Denver"),
   ("MOUNTAIN DAYLIGHT TIME", "America/Denver"),
   ("CENTRAL STANDARD TIME", "America/Chicago"),
   ("CENTRAL DAYLIGHT TIME", "America/Chicago"),
   ("EASTERN STANDARD TIME", "America/New_York"),
   ("EASTERN DAYLIGHT TIME", "America/New_York")]

/-- `abbrev_map` from `parse_human_datetime`. -/
def abbrev_map : List (String × String) :=
  [("PST", "America/Los_Angeles"), ("PDT", "America/Los_Angeles"),
   ("MST", "America/Denver"), ("MDT", "America/Denver"),
   ("CST", "America/Chicago"), ("CDT", "America/Chicago"),
   ("EST", "America/New_York"), ("EDT", "America/New_York")]

/-- A naive `datetime` as produced by `datetime.strptime` (no timezone). -/
structure NaiveDT where
  year : Nat
  month : Nat
  day : Nat
  hour : Nat
  minute : Nat
deriving DecidableEq

/-- `tz.localize(naive)`: a wall-clock value anchored to a named zone, the
return value of `parse_human_datetime`. -/
structure Localized where
  naive : NaiveDT
  zone : String
deriving DecidableEq

/-- The exceptions `parse_human_datetime` can raise:  the two `ValueError`s
of the source, plus the `KeyError` of the `abbrev_map[tz_raw]` lookup on a
matched-but-unmapped token. -/
inductive ParseErr where
  | missingTimezone (original : String)
  | unknownTimezone (token : String)
  | unparseableDate (residual original : String)
deriving DecidableEq

/-- `str(e)` for the exceptions of `parse_human_datetime`, mirroring the
f-strings of the source (for a `KeyError`, `str(e)` is the quoted key). -/
def errMessage : ParseErr → String
  | .missingTimezone original =>
      "[ERROR] Could not extract timezone from: " ++ original
  | .unknownTimezone token => "'" ++ token ++ "'"
  | .unparseableDate residual original =>
      "[ERROR] Invalid datetime after normalization: '" ++ residual ++
        "'\nOriginal: '" ++ original ++ "'"

/-- Tokenization used to model `datetime.strptime` for the source's format
strings: every directive there matches a run of non-whitespace, and a literal
space in a format matches `\s+` in the data. -/
def splitOnCharAux (sep : Char) : List Char → List Char → List (List Char)
  | [], acc => [acc.reverse]
  | c :: rest, acc =>
    if c = sep then acc.reverse :: splitOnCharAux sep rest []
    else splitOnCharAux sep rest (c :: acc)

/-- `str.split(sep)` keeping empty parts (used for the `:` and `-` literals
inside single `strptime` tokens). -/
def splitOnChar (sep : Char) (l : List Char) : List (List Char) :=
  splitOnCharAux sep l []

def splitNonWs : Nat → List Char → List (List Char)
  | 0, _ => []
  | _ + 1, [] => []
  | fuel + 1, c :: rest =>
    if isSpaceChar c then splitNonWs fuel rest
    else
      (c :: rest.takeWhile (fun d => !isSpaceChar d)) ::
        splitNonWs fuel (rest.dropWhile (fun d => !isSpaceChar d))

def pyTokens (s : String) : List String :=
  (splitNonWs s.toList.length s.toList).map String.mk

def weekday_names : List String :=
  ["MONDAY", "TUESDAY", "WEDNESDAY", "THURSDAY", "FRIDAY", "SATURDAY", "SUNDAY"]

def month_full_names : List String :=
  ["JANUARY", "FEBRUARY", "MARCH", "APRIL", "MAY", "JUNE", "JULY", "AUGUST",
   "SEPTEMBER", "OCTOBER", "NOVEMBER", "DECEMBER"]

def month_abbrev_names : List String :=
  ["JAN", "FEB", "MAR", "APR", "MAY", "JUN", "JUL", "AUG", "SEP", "OCT",
   "NOV", "DEC"]

/-- `%A` (case-insensitive full weekday name; parsed but not validated
against the date by `strptime`). -/
def parseWeekday (t : String) : Bool :=
  weekday_names.contains (upperStr t)

/-- Position (1-based) of `x` in `l`, for month-name lookup. -/
def indexOf1 (l : List String) (x : String) : Option Nat :=
  match l.indexOf? x with
  | some i => some (i + 1)
  | none => none

/-- `%B` (case-insensitive full month name). -/
def parseMonthFull (t : String) : Option Nat :=
  indexOf1 month_full_names (upperStr t)

/-- `%b` (case-insensitive abbreviated month name). -/
def parseMonthAbbrev (t : String) : Option Nat :=
  indexOf1 month_abbrev_names (upperStr t)

def digitsToNat (cs : List Char) : Nat :=
  cs.foldl (fun a c => a * 10 + (c.toNat - '0'.toNat)) 0

/-- `%d`: regex `3[01]|[12]\d|0[1-9]|[1-9]`, i.e. one or two digits with
value 1–31 (a leading zero is allowed, "00" is not). -/
def parseDay (t : String) : Option Nat :=
  let cs := t.toList
  if (cs.length = 1 ∨ cs.length = 2) ∧ cs.all isDigitChar ∧
      1 ≤ digitsToNat cs ∧ digitsToNat cs ≤ 31 then
    some (digitsToNat cs)
  else none

/-- `%Y`: exactly four digits. -/
def parseYear (t : String) : Option Nat :=
  let cs := t.toList
  if cs.length = 4 ∧ cs.all isDigitChar then some (digitsToNat cs) else none

/-- `%I`: regex `1[0-2]|0[1-9]|[1-9]`, i.e. one or two digits with value
1–12 ("00" excluded). -/
def parseHour12 (cs : List Char) : Option Nat :=
  if (cs.length = 1 ∨ cs.length = 2) ∧ cs.all isDigitChar ∧
      1 ≤ digitsToNat cs ∧ digitsToNat cs ≤ 12 then
    some (digitsToNat cs)
  else none

/-- `%M`: regex `[0-5]\d|\d`, i.e. one digit, or two digits below 60. -/
def parseMinute (cs : List Char) : Option Nat :=
  if (cs.length = 1 ∨ cs.length = 2) ∧ cs.all isDigitChar ∧
      digitsToNat cs ≤ 59 then
    some (digitsToNat cs)
  else none

/-- `%I:%M` inside a single whitespace-delimited token. -/
def parseTimeToken (t : String) : Option (Nat × Nat) :=
  match (splitOnChar ':' t.toList).map String.mk with
  | [hs, ms] =>
    match parseHour12 hs.toList, parseMinute ms.toList with
    | some h, some m => some (h, m)
    | _, _ => none
  | _ => none

/-- `%p`: case-insensitive `AM`/`PM`; `true` means PM. -/
def parseAmPmToken (t : String) : Option Bool :=
  if upperStr t = "AM" then some false
  else if upperStr t = "PM" then some true
  else none

def isLeapYear (y : Nat) : Bool :=
  y % 4 = 0 && (y % 100 ≠ 0 || y % 400 = 0)

def daysInMonth (y m : Nat) : Nat :=
  if m = 2 then (if isLeapYear y then 29 else 28)
  else if m = 4 ∨ m = 6 ∨ m = 9 ∨ m = 11 then 30
  else 31

/-- The validation `datetime(...)` performs on the parsed fields
(`MINYEAR = 1`, day must exist in the month). -/
def validDate (y m d : Nat) : Bool :=
  1 ≤ y && d ≤ daysInMonth y m

/-- `%I`/`%p` to 24-hour conversion performed by `strptime`. -/
def to24Hour (h12 : Nat) (pm : Bool) : Nat :=
  if pm then (if h12 = 12 then 12 else h12 + 12)
  else (if h12 = 12 then 0 else h12)

/-- Tail of a format after the weekday: `%{B|b} %d %Y [at ]%I:%M %p`. -/
def parseFmtRest (monthFull hasAt : Bool) : List String → Option NaiveDT
  | mo :: dy :: yr :: rest =>
    match (if monthFull then parseMonthFull mo else parseMonthAbbrev mo),
        parseDay dy, parseYear yr with
    | some m, some d, some y =>
      let rest' : Option (List String) :=
        if hasAt then
          match rest with
          | a :: r => if upperStr a = "AT" then some r else none
          | [] => none
        else some rest
      match rest' with
      | some [tm, ap] =>
        match parseTimeToken tm, parseAmPmToken ap with
        | some (h12, mi), some pm =>
          if validDate y m d then some ⟨y, m, d, to24Hour h12 pm, mi⟩ else none
        | _, _ => none
      | _ => none
    | _, _, _ => none
  | _ => none

/-- `datetime.strptime(s, fmt)` for one of the source's eight formats,
identified by (has `%A`, `%B` vs `%b`, has the literal `at`).  `strptime`
requires the whole string to be consumed. -/
def parseFmt (hasWeekday monthFull hasAt : Bool) (toks : List String) :
    Option NaiveDT :=
  if hasWeekday then
    match toks with
    | w :: rest => if parseWeekday w then parseFmtRest monthFull hasAt rest else none
    | [] => none
  else parseFmtRest monthFull hasAt toks

/-- The `fmts` list of `parse_human_datetime`, in source order, as
(has `%A`, `%B` vs `%b`, has `at`) triples. -/
def strptime_formats : List (Bool × Bool × Bool) :=
  [(true, true, true), (true, false, true), (true, true, false),
   (true, false, false), (false, true, true), (false, false, true),
   (false, true, false), (false, false, false)]

/-- The format-trying loop of `parse_human_datetime`: first successful
format wins. -/
def strptimeAny (s : String) : Option NaiveDT :=
  strptime_formats.findSome? fun f => parseFmt f.1 f.2.1 f.2.2 (pyTokens s)

/-- The timezone-mapping step of `parse_human_datetime`: `full_tz_map`
first, then `abbrev_map[tz_raw]`, whose `KeyError` is the
matched-but-unmapped failure path. -/
def tzLookup (tz_raw : String) : Except ParseErr String :=
  match full_tz_map.lookup tz_raw with
  | some z => .ok z
  | none =>
    match abbrev_map.lookup tz_raw with
    | some z => .ok z
    | none => .error (.unknownTimezone tz_raw)

/-- The tail of `parse_human_datetime` once the timezone token `tok` has
been found in the normalized string `s`: map the token, strip it, try the
format list, and localize. -/
def parseWithTz (dt_str s tok : String) : Except ParseErr Localized :=
  match tzLookup (upperStr tok) with
  | .error e => .error e
  | .ok tz_name =>
    match strptimeAny (trimStr (dropRightStr s tok.length)) with
    | some naive => .ok ⟨naive, tz_name⟩
    | none =>
      .error (.unparseableDate (trimStr (dropRightStr s tok.length)) dt_str)

/-- `parse_human_datetime` from `src/calendars/leadconnector/book.py`:
normalize, extract and map the trailing timezone token, strip it, try the
format list, and localize the parsed naive datetime to the mapped zone. -/
def parse_human_datetime (dt_str : String) : Except ParseErr Localized :=
  match findTzToken (normalize_datetime_string dt_str) with
  | none => .error (.missingTimezone dt_str)
  | some tok => parseWithTz dt_str (normalize_datetime_string dt_str) tok

/-- A timezone-aware `datetime` (`leadconnector.py` works at whole-second
granularity: ISO slot strings and strptime results).  `abs` is the absolute
time in seconds since the epoch; `offset` is the attached `tzinfo`'s UTC
offset in seconds, so the wall-clock reading is `abs + offset`. -/
structure AwareDT where
  abs : Int
  offset : Int
deriving DecidableEq

/-- A `pytz` timezone object.  `offsetAtAbs` is the zone's UTC offset at an
absolute instant (used by `astimezone` and `datetime.now(tz)`);
`offsetAtWall` is the offset `tz.localize` assigns to a naive wall-clock
value.  `pytz` itself is a third-party collaborator, so zones are opaque
pairs of offset functions. -/
structure Tz where
  offsetAtAbs : Int → Int
  offsetAtWall : Int → Int

/-- A fixed-offset `tzinfo`, as carried by `datetime.fromisoformat` slots and
produced by `astimezone`. -/
def fixedTz (off : Int) : Tz :=
  ⟨fun _ => off, fun _ => off⟩

/-- `dt.astimezone(tz)`: same absolute instant, offset taken from `tz`. -/
def astimezone (dt : AwareDT) (tz : Tz) : AwareDT :=
  ⟨dt.abs, tz.offsetAtAbs dt.abs⟩

/-- `tz.localize(naive)` on a naive wall-clock value in epoch seconds. -/
def Tz.localize (tz : Tz) (wall : Int) : AwareDT :=
  ⟨wall - tz.offsetAtWall wall, tz.offsetAtWall wall⟩

/-- `dt + timedelta(seconds=n)` on an aware datetime: Python shifts the wall
clock and keeps the `tzinfo` object, so with the fixed-offset `tzinfo`s used
here the absolute time shifts by the same amount. -/
def pyAddTimedelta (dt : AwareDT) (n : Int) : AwareDT :=
  ⟨dt.abs + n, dt.offset⟩

/-- `dt.time()` as seconds of the wall-clock day. -/
def timeOfDay (dt : AwareDT) : Int :=
  (dt.abs + dt.offset).emod 86400

/-- `dt.replace(hour=0, minute=0, second=0, microsecond=0)`: truncate the
wall clock to the start of its calendar day, keeping the same `tzinfo`. -/
def replace_midnight (dt : AwareDT) : AwareDT :=
  let wall := dt.abs + dt.offset
  ⟨wall - wall.emod 86400 - dt.offset, dt.offset⟩

/-- `is_in_business_hours` from `leadconnector.py`:
`time(8, 0) <= dt.time() <= time(17, 0)`. -/
def is_in_business_hours (dt : AwareDT) : Bool :=
  decide (8 * 3600 ≤ timeOfDay dt) && decide (timeOfDay dt ≤ 17 * 3600)

/-- Absolute distance `abs(dt - requested)` used as the sort key in targeted
mode, in seconds. -/
def distFrom (requested dt : AwareDT) : Nat :=
  (dt.abs - requested.abs).natAbs

/-- The targeted-mode branch of `handle_leadconnector_request` (a requested
instant is present): keep provider slots from the start of the requested
provider-local day, convert to the customer zone, filter by business hours,
and sort by distance from the requested instant.  Python's `sorted` is a
stable sort, and a stable sort by a total preorder on keys is a unique
function of its input, so it is modelled by insertion sort (also stable). -/
def targeted_times (requested_customer : AwareDT) (provider_slots : List AwareDT)
    (provider_tz customer_tz : Tz) : List AwareDT :=
  let requested_provider := astimezone requested_customer provider_tz
  let start_day_provider := replace_midnight requested_provider
  let eligible := provider_slots.filter fun slot => start_day_provider.abs ≤ slot.abs
  let times := eligible.map fun slot => astimezone slot customer_tz
  let times := times.filter is_in_business_hours
  List.insertionSort
    (fun a b => distFrom requested_customer a ≤ distFrom requested_customer b) times

/-- The open-mode branch of `handle_leadconnector_request` (no requested
instant): keep provider slots at or after "now", convert to the customer
zone, filter by business hours; no re-sorting. -/
def open_times (now_provider : AwareDT) (provider_slots : List AwareDT)
    (customer_tz : Tz) : List AwareDT :=
  let eligible := provider_slots.filter fun slot => now_provider.abs ≤ slot.abs
  let times := eligible.map fun slot => astimezone slot customer_tz
  times.filter is_in_business_hours

/-- Python truthiness of an optional string parameter (`None` and `""` are
falsy). -/
def truthy : Option String → Bool
  | none => false
  | some s => s ≠ ""

/-- Python f-string interpolation of a possibly-`None` value. -/
def pyStr : Option String → String
  | none => "None"
  | some s => s

/-- `_is_offset_like_tz` from `leadconnector.py`. -/
def _is_offset_like_tz (tz_str : String) : Bool :=
  if tz_str = "" then false
  else
    let s := trimList tz_str.toList
    (match s with
     | c :: _ => c = '+' || c = '-'
     | [] => false) && s.length ≤ 5

/-- Modelled from the spec: `utils.state_timezones.get_timezone_for_state`
is imported by `leadconnector.py` but its module is not under `src/`; per
the spec it is "a static state-code → timezone table ... treated as total
for all supported codes", so it is modelled as an arbitrary total function
from state codes to zone names, passed as a parameter. -/
def StateTable : Type := String → String

/-- The `pytz.timezone` zone database: `none` models
`pytz.UnknownTimeZoneError`.  `pytz` is a third-party collaborator, so the
database is a parameter. -/
def PytzDB : Type := String → Option Tz

/-- The exceptions the request handler can let escape. -/
inductive PyErr where
  | valueError (msg : String)
  | unknownTimeZoneError (name : String)
deriving DecidableEq

/-- An outbound HTTP request issued while handling a get-available-times
request (the `dep_logs` targets, in order of issue). -/
inductive DepCall where
  | contactFetch (url : String)
  | locationFetch (url : String)
  | slotFetch (url : String)
deriving DecidableEq

/-- The external data consumed by one get-available-times request: the
contact lookup's status and parsed `contact.timezone` field (`none` covers a
failed JSON parse or a missing field), and the slot fetch's status and the
parsed `slots` lists of the response groups. -/
structure LCWorld where
  contactStatus : Nat
  contactTimezone : Option String
  slotStatus : Nat
  slotGroups : List (List AwareDT)

/-- `resolve_customer_timezone` from `leadconnector.py`: contact timezone if
present, non-offset-like and known to `pytz`; otherwise (after a
logging-only location fetch) the state-table fallback, which raises if
`pytz` rejects the table's zone name.  Returns the outcome together with
the outbound calls made. -/
def resolve_customer_timezone (pytz : PytzDB) (get_timezone_for_state : StateTable)
    (w : LCWorld) (contact_id location_id : Option String) (state_code : String) :
    Except PyErr Tz × List DepCall :=
  let contactCalls :=
    if truthy contact_id then
      [DepCall.contactFetch
        ("https://services.leadconnectorhq.com/contacts/" ++ pyStr contact_id)]
    else []
  let contactZone : Option Tz :=
    if truthy contact_id ∧ w.contactStatus = 200 then
      match w.contactTimezone with
      | some tz => if tz ≠ "" ∧ ¬_is_offset_like_tz tz then pytz tz else none
      | none => none
    else none
  match contactZone with
  | some z => (.ok z, contactCalls)
  | none =>
    let locCalls :=
      if truthy location_id then
        [DepCall.locationFetch
          ("https://services.leadconnectorhq.com/locations/" ++ pyStr location_id)]
      else []
    match pytz (get_timezone_for_state state_code) with
    | some z => (.ok z, contactCalls ++ locCalls)
    | none =>
      (.error (.unknownTimeZoneError (get_timezone_for_state state_code)),
        contactCalls ++ locCalls)

/-- Days since 1970-01-01 of a proleptic-Gregorian calendar date
(the civil-from-days inverse used to give parsed wall-clock values an epoch
anchor). -/
def daysFromCivil (y m d : Int) : Int :=
  let y' := if m ≤ 2 then y - 1 else y
  let era := y'.fdiv 400
  let yoe := y' - era * 400
  let mp := (m + 9).emod 12
  let doy := (153 * mp + 2).fdiv 5 + d - 1
  let doe := yoe * 365 + yoe.fdiv 4 - yoe.fdiv 100 + doy
  era * 146097 + doe - 719468

/-- Wall-clock epoch seconds of a parsed naive datetime. -/
def naiveToSecs (n : NaiveDT) : Int :=
  daysFromCivil n.year n.month n.day * 86400 + n.hour * 3600 + n.minute * 60

/-- `%m`: regex `1[0-2]|0[1-9]|[1-9]`, like `%I`. -/
def parseMonthNum (cs : List Char) : Option Nat :=
  if (cs.length = 1 ∨ cs.length = 2) ∧ cs.all isDigitChar ∧
      1 ≤ digitsToNat cs ∧ digitsToNat cs ≤ 12 then
    some (digitsToNat cs)
  else none

/-- `datetime.strptime` anchors its compiled pattern at both ends of the
data: a format that begins and ends with a directive — as
`"%Y-%m-%d %I:%M %p"` does — rejects leading or trailing whitespace in the
data, while the format's interior spaces match whitespace runs (`\s+`).
`pyTokens` discards edge padding, so this guard restores the anchoring. -/
def noEdgeWs (l : List Char) : Bool :=
  (match l.head? with
   | some c => !isSpaceChar c
   | none => true) &&
  (match l.getLast? with
   | some c => !isSpaceChar c
   | none => true)

/-- `datetime.strptime(dt_str, "%Y-%m-%d %I:%M %p")`: no edge whitespace,
then exactly date, time and meridiem fields separated by whitespace runs. -/
def strptimeYMD (s : String) : Option NaiveDT :=
  if noEdgeWs s.toList then
    match pyTokens s with
    | [date, tm, ap] =>
      match (splitOnChar '-' date.toList).map String.mk with
      | [ys, ms, ds] =>
        match parseYear ys, parseMonthNum ms.toList, parseDay ds,
            parseTimeToken tm, parseAmPmToken ap with
        | some y, some m, some d, some (h12, mi), some pm =>
          if validDate y m d then some ⟨y, m, d, to24Hour h12 pm, mi⟩ else none
        | _, _, _, _, _ => none
      | _ => none
    | _ => none
  else none

/-- `parse_requested_datetime` from `leadconnector.py`: strict
`%Y-%m-%d %I:%M %p` parse localized to the customer zone; any failure is
re-raised as a `ValueError` with a fixed message that does not include the
input. -/
def parse_requested_datetime (dt_str : String) (customer_tz : Tz) :
    Except PyErr AwareDT :=
  match strptimeYMD dt_str with
  | some naive => .ok (customer_tz.localize (naiveToSecs naive))
  | none =>
    .error (.valueError "requested_date_time must be in format YYYY-MM-DD HH:MM AM/PM")

/-- Query-string and header inputs of `handle_leadconnector_request`. -/
structure GetTimesRequest where
  orgid : Option String
  requested_date_time : Option String
  state_code : Option String
  calendar_id : Option String
  contact_id : Option String
  location_id : Option String
  token : Option String
  authHeader : Option String

/-- What `handle_leadconnector_request` produces.  `missingParams` and
`missingToken` are the 400 responses; `raised e` is an exception escaping
the handler (no enclosing try/except exists in the handler or its router, so
the serverless host turns it into a server error); `slotFetchFailed` is the
500 empty-times response; `times` is the 200 response, which renders the
listed customer-zone instants. -/
inductive HandleOutcome where
  | missingParams
  | missingToken
  | raised (e : PyErr)
  | slotFetchFailed
  | times (times_customer : List AwareDT)
deriving DecidableEq

/-- `token or header` (Python `or` keeps the first truthy operand). -/
def pyOr (a b : Option String) : Option String :=
  if truthy a then a else b

/-- `handle_leadconnector_request` from `leadconnector.py`, with the
outbound calls it issues.  `now` is the current absolute time in epoch
seconds. -/
def handle_leadconnector_request (pytz : PytzDB) (get_timezone_for_state : StateTable)
    (req : GetTimesRequest) (w : LCWorld) (now : Int) :
    HandleOutcome × List DepCall :=
  if ¬(truthy req.orgid ∧ truthy req.state_code) then (.missingParams, [])
  else
    let auth_token := pyOr req.token req.authHeader
    if ¬truthy auth_token then (.missingToken, [])
    else
      match resolve_customer_timezone pytz get_timezone_for_state w
          req.contact_id req.location_id (pyStr req.state_code) with
      | (.error e, calls) => (.raised e, calls)
      | (.ok customer_tz, calls) =>
        let slotUrl := "https://services.leadconnectorhq.com/calendars/" ++
          pyStr req.calendar_id ++ "/free-slots"
        let calls := calls ++ [DepCall.slotFetch slotUrl]
        if w.slotStatus ≠ 200 then (.slotFetchFailed, calls)
        else
          let provider_slots := w.slotGroups.flatten
          match provider_slots with
          | [] => (.times [], calls)
          | first :: _ =>
            let provider_tz := fixedTz first.offset
            if truthy req.requested_date_time then
              match parse_requested_datetime (pyStr req.requested_date_time)
                  customer_tz with
              | .error e => (.raised e, calls)
              | .ok requested_customer =>
                (.times (targeted_times requested_customer provider_slots
                  provider_tz customer_tz), calls)
            else
              let now_provider : AwareDT := ⟨now, provider_tz.offsetAtAbs now⟩
              (.times (open_times now_provider provider_slots customer_tz), calls)

/-- JSON body fields of the booking request (`body.get(...)`; `description`
defaults to `""`). -/
structure BookBody where
  proposed_datetime : Option String
  calendar_id : Option String
  lead_name : Option String
  locationId : Option String
  contactId : Option String
  token : Option String
  description : Option String
deriving DecidableEq

/-- The appointment-creation payload built by
`book_leadconnector_appointment` (`startTime`/`endTime` are the instants
whose `isoformat()` is sent). -/
structure ApptPayload where
  title : String
  calendarId : String
  locationId : String
  contactId : String
  startTime : AwareDT
  endTime : AwareDT
  meetingLocationType : String
  meetingLocationId : String
  overrideLocationConfig : Bool
  appointmentStatus : String
  description : String
  ignoreDateRange : Bool
  toNotify : Bool
  ignoreFreeSlotValidation : Bool
deriving DecidableEq

/-- Lines 197–217 of `book.py`: the appointment window and payload around a
calendar-zone start instant.  The 30-minute duration is written into the
function; no caller-supplied duration exists. -/
def build_appointment_payload (lead_name calendar_id location_id contact_id
    description : String) (calendar_dt : AwareDT) : ApptPayload :=
  { title := "AI Scheduled Call - " ++ lead_name
    calendarId := calendar_id
    locationId := location_id
    contactId := contact_id
    startTime := calendar_dt
    endTime := pyAddTimedelta calendar_dt (30 * 60)
    meetingLocationType := "custom"
    meetingLocationId := "custom_0"
    overrideLocationConfig := true
    appointmentStatus := "confirmed"
    description := description
    ignoreDateRange := false
    toNotify := true
    ignoreFreeSlotValidation := false }

/-- What `book_leadconnector_appointment` returns: the 400 responses for a
bad JSON body, missing fields, or a datetime-parse failure (`str(e)` body),
the 500 response when calendar-timezone detection fails, or the upstream
booking echo. -/
inductive BookOutcome where
  | invalidJson
  | missingFields
  | parseError (msg : String)
  | detectError (msg : String)
  | booked (payload : ApptPayload) (status : Nat) (responseText : String)
deriving DecidableEq

/-- `book_leadconnector_appointment` from `book.py`.  `pytzLocalize` models
the `pytz` zone database turning `tz.localize(naive)` into an absolute
instant; `detect` is the result of `detect_calendar_timezone` (the fixed
offset of the calendar's first slot, or the raised message); `upstream` is
the appointment-creation service. -/
def book_core (pytzLocalize : Localized → AwareDT) (body : BookBody)
    (authHeader : Option String) (detect : Except String Int)
    (upstream : ApptPayload → Nat × String) : BookOutcome :=
  if ¬(truthy body.proposed_datetime ∧ truthy body.calendar_id ∧
      truthy body.lead_name ∧ truthy body.locationId ∧
      truthy body.contactId ∧ truthy (pyOr body.token authHeader)) then
    .missingFields
  else
    match parse_human_datetime (pyStr body.proposed_datetime) with
    | .error e => .parseError (errMessage e)
    | .ok loc =>
      match detect with
      | .error msg => .detectError msg
      | .ok calOffset =>
        let requested_dt := pytzLocalize loc
        let calendar_dt := astimezone requested_dt (fixedTz calOffset)
        let payload := build_appointment_payload (pyStr body.lead_name)
          (pyStr body.calendar_id) (pyStr body.locationId)
          (pyStr body.contactId) (body.description.getD "") calendar_dt
        let (st, txt) := upstream payload
        .booked payload st txt

def book_leadconnector_appointment (pytzLocalize : Localized → AwareDT)
    (body? : Option BookBody) (authHeader : Option String)
    (detect : Except String Int) (upstream : ApptPayload → Nat × String) :
    BookOutcome :=
  match body? with
  | none => .invalidJson
  | some body => book_core pytzLocalize body authHeader detect upstream

/-- Any token returned by the timezone search is one of the 16 regex
alternatives up to case. -/
theorem findTz_toUpper_mem {s tok : String} (h : findTzToken s = some tok) :
    upperStr tok ∈ tz_regex_tokens.map upperStr := by
  obtain ⟨pat, hmem, hf⟩ := List.exists_of_findSome?_eq_some h
  by_cases hc : pat.length ≤ s.length ∧
      upperStr (takeRightStr s pat.length) = upperStr pat
  · rw [if_pos hc] at hf
    obtain rfl : takeRightStr s pat.length = tok := by injection hf
    rw [hc.2]
    exact List.mem_map_of_mem _ hmem
  · rw [if_neg hc] at hf
    cases hf

/-- Every uppercased regex alternative is a key of `full_tz_map` or of
`abbrev_map`. -/
theorem tz_upper_mapped : ∀ k ∈ tz_regex_tokens.map upperStr,
    ((full_tz_map.lookup k).isSome || (abbrev_map.lookup k).isSome) = true := by
  decide

/-- `parse_human_datetime` fails only with the missing-timezone error on its
own input or the unparseable-date error on its own input; in particular the
matched-but-unmapped (`KeyError`) branch never fires. -/
theorem tzLookup_ok_of_mapped {k : String}
    (hm : ((full_tz_map.lookup k).isSome || (abbrev_map.lookup k).isSome) = true) :
    ∃ z, tzLookup k = .ok z := by
  unfold tzLookup
  cases hfull : full_tz_map.lookup k with
  | some z => exact ⟨z, rfl⟩
  | none =>
    cases habb : abbrev_map.lookup k with
    | some z => exact ⟨z, rfl⟩
    | none => rw [hfull, habb] at hm; cases hm

set_option maxHeartbeats 1000000 in
theorem parse_error_cases {s : String} {e : ParseErr}
    (h : parse_human_datetime s = .error e) :
    e = .missingTimezone s ∨ ∃ r, e = .unparseableDate r s := by
  unfold parse_human_datetime at h
  cases hft : findTzToken (normalize_datetime_string s) with
  | none =>
    simp only [hft] at h
    left
    injection h with h
    exact h.symm
  | some tok =>
    simp only [hft] at h
    obtain ⟨z, hz⟩ :=
      tzLookup_ok_of_mapped (tz_upper_mapped _ (findTz_toUpper_mem hft))
    unfold parseWithTz at h
    rw [hz] at h
    cases hsp : strptimeAny (trimStr (dropRightStr
        (normalize_datetime_string s) tok.length)) with
    | some naive =>
      rw [hsp] at h
      exact absurd h (by simp)
    | none =>
      rw [hsp] at h
      right
      injection h with h
      exact ⟨_, h.symm⟩

/-- C1, counterexample: on the second input of the claim,
`"Friday November 28 2025 1100AM PST"`, the parser does not return the
claimed instant — the repair steps never insert a colon into `1100`
(step 5 requires the hour and minute digits to be space-separated, step 6
requires a 1–2 digit hour token), so every `strptime` format fails. -/
theorem parse_human_datetime_second_input_fails :
    parse_human_datetime "Friday November 28 2025 1100AM PST" =
      Except.error (.unparseableDate "Friday November 28 2025 1100 AM"
        "Friday November 28 2025 1100AM PST") := by
  rfl

/-- C1, amended: the first input normalizes to
`"Friday November 28 2025 at 11:00 AM PST"` and parses to 2025-11-28T11:00
anchored to America/Los_Angeles; the second input normalizes to
`"Friday November 28 2025 1100 AM PST"` and fails with the
unparseable-date error rather than yielding the same instant. -/
theorem parse_human_datetime_claim_inputs :
    parse_human_datetime "Friday, November 28th, 2025 at 11 AM PST" =
      Except.ok ⟨⟨2025, 11, 28, 11, 0⟩, "America/Los_Angeles"⟩ ∧
    parse_human_datetime "Friday November 28 2025 1100AM PST" =
      Except.error (.unparseableDate "Friday November 28 2025 1100 AM"
        "Friday November 28 2025 1100AM PST") :=
  ⟨rfl, rfl⟩

/-- C8, counterexample: for the input
`"Friday November 28 2025 at 11 AM P,ST"` the raw string's tail contains no
recognizable timezone token (the end-anchored search fails on it), yet
`parse_human_datetime` succeeds, because comma removal during repair
creates the token `PST`. -/
theorem missing_tz_tail_counterexample :
    findTzToken "Friday November 28 2025 at 11 AM P,ST" = none ∧
    parse_human_datetime "Friday November 28 2025 at 11 AM P,ST" =
      Except.ok ⟨⟨2025, 11, 28, 11, 0⟩, "America/Los_Angeles"⟩ :=
  ⟨rfl, rfl⟩

/-- C8, amended: whenever the end-anchored timezone search fails on the
*normalized* string, `parse_human_datetime` fails with the missing-timezone
error carrying the original input; it never substitutes a default zone. -/
theorem missing_tz_always_fails (dt_str : String)
    (h : findTzToken (normalize_datetime_string dt_str) = none) :
    parse_human_datetime dt_str = .error (.missingTimezone dt_str) := by
  unfold parse_human_datetime
  rw [h]

/-- Witness for `missing_tz_always_fails` at the concrete input "hello". -/
theorem missing_tz_always_fails_witness :
    findTzToken (normalize_datetime_string "hello") = none ∧
    parse_human_datetime "hello" = .error (.missingTimezone "hello") :=
  ⟨by decide, missing_tz_always_fails "hello" (by decide)⟩

/-- C9: whenever the end-anchored timezone regex matches inside
`parse_human_datetime`, the uppercased matched token is a key of
`full_tz_map` or of `abbrev_map`, so the matched-but-unmapped lookup branch
(a `KeyError` on `abbrev_map`) is unreachable. -/
theorem tz_match_always_mapped (dt_str tok : String)
    (h : findTzToken (normalize_datetime_string dt_str) = some tok) :
    ((full_tz_map.lookup (upperStr tok)).isSome ||
      (abbrev_map.lookup (upperStr tok)).isSome) = true ∧
    ∀ t, parse_human_datetime dt_str ≠ .error (.unknownTimezone t) := by
  refine ⟨tz_upper_mapped _ (findTz_toUpper_mem h), fun t hcontra => ?_⟩
  rcases parse_error_cases hcontra with h1 | ⟨r, h1⟩ <;> cases h1

/-- Witness for `tz_match_always_mapped` at a concrete input. -/
theorem tz_match_always_mapped_witness :
    findTzToken (normalize_datetime_string
      "Friday, November 28th, 2025 at 11 AM PST") = some "PST" ∧
    (((full_tz_map.lookup (upperStr "PST")).isSome ||
      (abbrev_map.lookup (upperStr "PST")).isSome) = true ∧
      ∀ t, parse_human_datetime "Friday, November 28th, 2025 at 11 AM PST" ≠
        .error (.unknownTimezone t)) :=
  ⟨by decide, tz_match_always_mapped _ "PST" (by decide)⟩

/-- C7: the appointment payload built by the book operation carries an end
instant exactly 30 minutes (1800 seconds) after the start instant as
absolute times, with the same UTC offset (timezone) as the start, for every
zone-aware start instant; `build_appointment_payload` takes no duration
argument, so the 30-minute window is a constant of the operation. -/
theorem appointment_window_thirty_minutes
    (lead_name calendar_id location_id contact_id description : String)
    (calendar_dt : AwareDT) :
    (build_appointment_payload lead_name calendar_id location_id contact_id
        description calendar_dt).startTime = calendar_dt ∧
    (build_appointment_payload lead_name calendar_id location_id contact_id
        description calendar_dt).endTime.abs = calendar_dt.abs + 30 * 60 ∧
    (build_appointment_payload lead_name calendar_id location_id contact_id
        description calendar_dt).endTime.offset = calendar_dt.offset :=
  ⟨rfl, rfl, rfl⟩

/-- C3: whenever the fetched contact record's timezone field is an
offset-like string (leading "+"/"-", at most 5 characters), the resolution
does not use it: for every contact id, location id and lookup status, the
result is the zone the state-code table gives for the supplied state
code. -/
theorem offset_like_contact_tz_falls_back
    (pytz : PytzDB) (get_timezone_for_state : StateTable) (w : LCWorld)
    (contact_id location_id : Option String) (state_code : String)
    (t : String) (z : Tz)
    (htz : w.contactTimezone = some t)
    (hoff : _is_offset_like_tz t = true)
    (hz : pytz (get_timezone_for_state state_code) = some z) :
    (resolve_customer_timezone pytz get_timezone_for_state w contact_id
      location_id state_code).1 = .ok z := by
  unfold resolve_customer_timezone
  by_cases hct : truthy contact_id = true ∧ w.contactStatus = 200 <;>
    simp [hct, htz, hoff, hz]

/-- Witness for `offset_like_contact_tz_falls_back` with contact timezone
"-03" and a state table sending every code to a fixed zone. -/
theorem offset_like_contact_tz_falls_back_witness :
    _is_offset_like_tz "-03" = true ∧
    (resolve_customer_timezone (fun _ => some (fixedTz (-21600)))
      (fun _ => "America/Chicago") ⟨200, some "-03", 200, []⟩ (some "c1")
      none "TX").1 = .ok (fixedTz (-21600)) :=
  ⟨by decide,
    offset_like_contact_tz_falls_back _ _ _ _ _ _ _ _ rfl (by decide) rfl⟩

/-- C4: when a contact id is supplied, the contact lookup succeeds, and the
contact's timezone field is a non-empty, non-offset-like zone name the zone
database accepts, the resolution returns exactly that zone for every state
table, location id and state code — and the only outbound call is the
contact fetch (the location is not fetched, so its timezone cannot
influence the result). -/
theorem contact_tz_wins
    (pytz : PytzDB) (w : LCWorld) (contact_id : Option String)
    (t : String) (z : Tz)
    (hcid : truthy contact_id = true)
    (hstatus : w.contactStatus = 200)
    (htz : w.contactTimezone = some t)
    (hne : t ≠ "")
    (hoff : _is_offset_like_tz t = false)
    (hz : pytz t = some z) :
    ∀ (get_timezone_for_state : StateTable) (location_id : Option String)
      (state_code : String),
      resolve_customer_timezone pytz get_timezone_for_state w contact_id
        location_id state_code =
      (.ok z, [DepCall.contactFetch
        ("https://services.leadconnectorhq.com/contacts/" ++ pyStr contact_id)]) := by
  intro get_timezone_for_state location_id state_code
  unfold resolve_customer_timezone
  simp [hcid, hstatus, htz, hne, hoff, hz]

/-- Witness for `contact_tz_wins` with contact timezone
"America/New_York". -/
theorem contact_tz_wins_witness :
    truthy (some "c1") = true ∧ ("America/New_York" : String) ≠ "" ∧
    _is_offset_like_tz "America/New_York" = false ∧
    resolve_customer_timezone
      (fun s => if s = "America/New_York" then some (fixedTz (-18000)) else none)
      (fun _ => "America/Chicago") ⟨200, some "America/New_York", 200, []⟩
      (some "c1") (some "loc7") "TX" =
      (.ok (fixedTz (-18000)),
        [DepCall.contactFetch "https://services.leadconnectorhq.com/contacts/c1"]) :=
  ⟨by decide, by decide, by decide,
    contact_tz_wins _ _ _ _ _ (by decide) rfl rfl (by decide) (by decide) rfl
      _ _ _⟩

/-- C5: in targeted mode the slots surviving the day-start and
business-hours filters are emitted in ascending order of absolute distance
from the requested instant, for every request and slot list; and for
customer-local candidates 09:00, 10:00 and 14:00 with the request at 09:50
(same day, zone offset 0), the output order is [10:00, 09:00, 14:00]. -/
theorem targeted_mode_sorted_by_distance :
    (∀ (requested : AwareDT) (slots : List AwareDT) (ptz ctz : Tz),
      List.Sorted (fun a b => distFrom requested a ≤ distFrom requested b)
        (targeted_times requested slots ptz ctz)) ∧
    targeted_times ⟨35400, 0⟩ [⟨32400, 0⟩, ⟨36000, 0⟩, ⟨50400, 0⟩]
        (fixedTz 0) (fixedTz 0) =
      [⟨36000, 0⟩, ⟨32400, 0⟩, ⟨50400, 0⟩] := by
  constructor
  · intro req slots ptz ctz
    unfold targeted_times
    letI : IsTotal AwareDT (fun a b => distFrom req a ≤ distFrom req b) :=
      ⟨fun _ _ => Nat.le_total _ _⟩
    letI : IsTrans AwareDT (fun a b => distFrom req a ≤ distFrom req b) :=
      ⟨fun _ _ _ => Nat.le_trans⟩
    exact List.sorted_insertionSort _ _
  · decide

/-- C6: open mode on provider slots 09:00, 09:30 and 18:00 with customer
zone equal to the provider zone and "now" at 08:00 yields [09:00, 09:30] in
original order; in general a value appears in the open-mode output iff it
is the customer-zone conversion of a provider slot at or after "now" whose
customer-local time of day lies in the closed interval 08:00–17:00, and the
output is a sublist of the converted slot list (no re-sorting). -/
theorem open_mode_business_hours_filter :
    open_times ⟨28800, 0⟩ [⟨32400, 0⟩, ⟨34200, 0⟩, ⟨64800, 0⟩] (fixedTz 0) =
      [⟨32400, 0⟩, ⟨34200, 0⟩] ∧
    ∀ (now_provider : AwareDT) (slots : List AwareDT) (ctz : Tz),
      (∀ dt, dt ∈ open_times now_provider slots ctz ↔
        ∃ slot ∈ slots, now_provider.abs ≤ slot.abs ∧
          dt = astimezone slot ctz ∧
          8 * 3600 ≤ timeOfDay dt ∧ timeOfDay dt ≤ 17 * 3600) ∧
      List.Sublist (open_times now_provider slots ctz)
        (slots.map (fun slot => astimezone slot ctz)) := by
  refine ⟨by decide, fun now slots ctz => ⟨fun dt => ?_, ?_⟩⟩
  · simp only [open_times, List.mem_filter, List.mem_map, is_in_business_hours,
      Bool.and_eq_true, decide_eq_true_eq]
    constructor
    · rintro ⟨⟨slot, ⟨hs, hp⟩, rfl⟩, hb1, hb2⟩
      exact ⟨slot, hs, by simpa using hp, rfl, hb1, hb2⟩
    · rintro ⟨slot, hs, hp, rfl, hb1, hb2⟩
      exact ⟨⟨slot, ⟨hs, by simpa using hp⟩, rfl⟩, hb1, hb2⟩
  · exact (List.filter_sublist _).trans ((List.filter_sublist _).map _)

/-- When the state table's zone name is known to the zone database, the
resolution cannot raise: it returns some zone. -/
theorem resolve_ok_of_table (pytz : PytzDB) (get_timezone_for_state : StateTable)
    (w : LCWorld) (contact_id location_id : Option String) (state_code : String)
    (h : (pytz (get_timezone_for_state state_code)).isSome = true) :
    ∃ z calls, resolve_customer_timezone pytz get_timezone_for_state w
      contact_id location_id state_code = (.ok z, calls) := by
  unfold resolve_customer_timezone
  cases hcz : (if truthy contact_id ∧ w.contactStatus = 200 then
      match w.contactTimezone with
      | some tz => if tz ≠ "" ∧ ¬_is_offset_like_tz tz then pytz tz else none
      | none => none
    else none : Option Tz) with
  | some z => exact ⟨z, _, rfl⟩
  | none =>
    cases hf : pytz (get_timezone_for_state state_code) with
    | some z => exact ⟨z, _, rfl⟩
    | none => rw [hf] at h; cases h

/-- Past the two validation gates, the handler never returns the
missing-field responses, and once the timezone resolution succeeds its
outbound-call trace is the resolution's calls followed by the slot fetch
(whatever the slot service returns and whatever the requested date is). -/
theorem handle_outcome_past_validation (pytz : PytzDB)
    (get_timezone_for_state : StateTable) (req : GetTimesRequest) (w : LCWorld)
    (now : Int)
    (h1 : truthy req.orgid = true) (h2 : truthy req.state_code = true)
    (h3 : truthy (pyOr req.token req.authHeader) = true) :
    ((handle_leadconnector_request pytz get_timezone_for_state req w now).1 ≠
        .missingParams ∧
      (handle_leadconnector_request pytz get_timezone_for_state req w now).1 ≠
        .missingToken) ∧
    ∀ z calls,
      resolve_customer_timezone pytz get_timezone_for_state w req.contact_id
          req.location_id (pyStr req.state_code) = (.ok z, calls) →
      (handle_leadconnector_request pytz get_timezone_for_state req w now).2 =
        calls ++ [DepCall.slotFetch
          ("https://services.leadconnectorhq.com/calendars/" ++
            pyStr req.calendar_id ++ "/free-slots")] := by
  unfold handle_leadconnector_request
  rw [if_neg (by simp [h1, h2]), if_neg (by simp [h3])]
  constructor
  · rcases hres : resolve_customer_timezone pytz get_timezone_for_state w
        req.contact_id req.location_id (pyStr req.state_code) with ⟨r, calls⟩
    cases r with
    | error e => simp
    | ok ctz =>
      dsimp only
      by_cases hs : w.slotStatus ≠ 200
      · simp [hs]
      · rw [if_neg hs]
        cases hne : w.slotGroups.flatten with
        | nil => simp
        | cons first restSlots =>
          dsimp only
          by_cases hreq : truthy req.requested_date_time = true
          · rw [if_pos (by simp [hreq])]
            cases hp : parse_requested_datetime (pyStr req.requested_date_time) ctz
              with
            | error e => simp
            | ok rc => simp
          · rw [if_neg (by simp [hreq])]
            simp
  · intro z calls hres
    rw [hres]
    dsimp only
    by_cases hs : w.slotStatus ≠ 200
    · simp [hs]
    · rw [if_neg hs]
      cases hne : w.slotGroups.flatten with
      | nil => simp
      | cons first restSlots =>
        dsimp only
        by_cases hreq : truthy req.requested_date_time = true
        · rw [if_pos (by simp [hreq])]
          cases hp : parse_requested_datetime (pyStr req.requested_date_time) z with
          | error e => simp
          | ok rc => simp
        · rw [if_neg (by simp [hreq])]

/-- C10: the get-available-times validation rejects exactly a missing (or
empty) orgid or state_code, then a missing auth token; omitting calendar_id
(or contact_id or location_id) is never rejected as a missing field, and
with calendar_id absent the handler still issues the slot-fetch call, whose
URL interpolates Python's `None` into the path. -/
theorem get_times_required_params (pytz : PytzDB)
    (get_timezone_for_state : StateTable) (w : LCWorld) (now : Int) :
    (∀ req : GetTimesRequest,
      (handle_leadconnector_request pytz get_timezone_for_state req w now).1 =
          .missingParams ↔
        ¬(truthy req.orgid = true ∧ truthy req.state_code = true)) ∧
    (∀ req : GetTimesRequest,
      (handle_leadconnector_request pytz get_timezone_for_state req w now).1 =
          .missingToken ↔
        (truthy req.orgid = true ∧ truthy req.state_code = true ∧
          truthy (pyOr req.token req.authHeader) = false)) ∧
    ∀ req : GetTimesRequest,
      truthy req.orgid = true → truthy req.state_code = true →
      truthy (pyOr req.token req.authHeader) = true →
      req.calendar_id = none →
      (pytz (get_timezone_for_state (pyStr req.state_code))).isSome = true →
      DepCall.slotFetch
          "https://services.leadconnectorhq.com/calendars/None/free-slots" ∈
        (handle_leadconnector_request pytz get_timezone_for_state req w now).2 := by
  refine ⟨fun req => ⟨fun h => ?_, fun hv => ?_⟩,
    fun req => ⟨fun h => ?_, fun hv => ?_⟩,
    fun req ha hb ht hcal htab => ?_⟩
  · by_contra hv
    obtain ⟨ha, hb⟩ := hv
    by_cases ht : truthy (pyOr req.token req.authHeader) = true
    · exact (handle_outcome_past_validation pytz get_timezone_for_state req w now
        ha hb ht).1.1 h
    · unfold handle_leadconnector_request at h
      rw [if_neg (by simp [ha, hb]), if_pos (by simpa using ht)] at h
      exact HandleOutcome.noConfusion h
  · unfold handle_leadconnector_request
    rw [if_pos hv]
  · by_cases hv : truthy req.orgid = true ∧ truthy req.state_code = true
    · obtain ⟨ha, hb⟩ := hv
      by_cases ht : truthy (pyOr req.token req.authHeader) = true
      · exact absurd h (handle_outcome_past_validation pytz get_timezone_for_state
          req w now ha hb ht).1.2
      · exact ⟨ha, hb, by simpa using ht⟩
    · unfold handle_leadconnector_request at h
      rw [if_pos hv] at h
      exact HandleOutcome.noConfusion h
  · obtain ⟨ha, hb, ht⟩ := hv
    unfold handle_leadconnector_request
    rw [if_neg (by simp [ha, hb]), if_pos (by simp [ht])]
  · obtain ⟨z, calls, hres⟩ := resolve_ok_of_table pytz get_timezone_for_state w
      req.contact_id req.location_id (pyStr req.state_code) htab
    have htrace := (handle_outcome_past_validation pytz get_timezone_for_state
      req w now ha hb ht).2 z calls hres
    rw [htrace, hcal]
    have hurl : ("https://services.leadconnectorhq.com/calendars/" ++
        pyStr none ++ "/free-slots") =
        "https://services.leadconnectorhq.com/calendars/None/free-slots" := by
      decide
    rw [hurl]
    simp

/-- Witness for `get_times_required_params` at a concrete request that has
orgid, state_code and token but no calendar_id. -/
theorem get_times_required_params_witness :
    ((handle_leadconnector_request (fun _ => some (fixedTz 0)) (fun _ => "Z")
        ⟨some "org", none, some "CA", none, none, none, some "tok", none⟩
        ⟨404, none, 500, []⟩ 0).1 = .missingParams ↔
      ¬(truthy (some "org") = true ∧ truthy (some "CA") = true)) ∧
    DepCall.slotFetch
        "https://services.leadconnectorhq.com/calendars/None/free-slots" ∈
      (handle_leadconnector_request (fun _ => some (fixedTz 0)) (fun _ => "Z")
        ⟨some "org", none, some "CA", none, none, none, some "tok", none⟩
        ⟨404, none, 500, []⟩ 0).2 :=
  ⟨(get_times_required_params _ _ _ _).1 _,
    (get_times_required_params _ _ _ _).2.2 _ (by decide) (by decide) (by decide)
      rfl rfl⟩

/-- The book operation surfaces every datetime-parse failure as the
`parseError` (400) outcome whose body is `str(e)`, and that body contains
the caller's `proposed_datetime` text verbatim. -/
theorem book_parse_failure_is_client_error
    (pytzLocalize : Localized → AwareDT) (body : BookBody)
    (authHeader : Option String) (detect : Except String Int)
    (upstream : ApptPayload → Nat × String) (e : ParseErr)
    (hfields : truthy body.proposed_datetime = true ∧ truthy body.calendar_id = true ∧
      truthy body.lead_name = true ∧ truthy body.locationId = true ∧
      truthy body.contactId = true ∧ truthy (pyOr body.token authHeader) = true)
    (hp : parse_human_datetime (pyStr body.proposed_datetime) = .error e) :
    book_leadconnector_appointment pytzLocalize (some body) authHeader detect
        upstream = .parseError (errMessage e) ∧
    ∃ pre post, errMessage e = pre ++ pyStr body.proposed_datetime ++ post := by
  obtain ⟨h1, h2, h3, h4, h5, h6⟩ := hfields
  constructor
  · show book_core pytzLocalize body authHeader detect upstream = _
    unfold book_core
    rw [if_neg (by simp [h1, h2, h3, h4, h5, h6]), hp]
  · rcases parse_error_cases hp with he | ⟨r, he⟩
    · subst he
      exact ⟨"[ERROR] Could not extract timezone from: ", "", by
        rw [String.append_empty]; rfl⟩
    · subst he
      exact ⟨"[ERROR] Invalid datetime after normalization: '" ++ r ++
        "'\nOriginal: '", "'", rfl⟩

/-- The get-available-times handler does not catch the `ValueError` raised
for a rejected `requested_date_time`: once validation passes, the customer
zone resolves, the slot fetch succeeds and at least one slot exists, a
rejected date string makes the handler raise, with the parser's fixed
message (which does not mention the offending input). -/
theorem get_times_parse_failure_raises (pytz : PytzDB)
    (get_timezone_for_state : StateTable) (req : GetTimesRequest) (w : LCWorld)
    (now : Int) (ctz : Tz) (calls : List DepCall) (first : AwareDT)
    (restSlots : List AwareDT)
    (h1 : truthy req.orgid = true) (h2 : truthy req.state_code = true)
    (h3 : truthy (pyOr req.token req.authHeader) = true)
    (hres : resolve_customer_timezone pytz get_timezone_for_state w
      req.contact_id req.location_id (pyStr req.state_code) = (.ok ctz, calls))
    (hs : w.slotStatus = 200)
    (hne : w.slotGroups.flatten = first :: restSlots)
    (hreq : truthy req.requested_date_time = true)
    (hparse : strptimeYMD (pyStr req.requested_date_time) = none) :
    (handle_leadconnector_request pytz get_timezone_for_state req w now).1 =
      .raised (.valueError
        "requested_date_time must be in format YYYY-MM-DD HH:MM AM/PM") := by
  unfold handle_leadconnector_request
  rw [if_neg (by simp [h1, h2]), if_neg (by simp [h3]), hres]
  dsimp only
  rw [if_neg (by simp [hs]), hne]
  dsimp only
  rw [if_pos (by simp [hreq])]
  unfold parse_requested_datetime
  rw [hparse]

/-- C2, amended: for the book operation, a rejected `proposed_datetime`
yields the 400 `parseError` response whose body contains the triggering
text; for the get-available-times operation, a rejected
`requested_date_time` instead raises an uncaught `ValueError` with a fixed
message (a server-side failure, not a client error carrying the input). -/
theorem datetime_rejection_error_paths :
    (∀ (pytzLocalize : Localized → AwareDT) (body : BookBody)
      (authHeader : Option String) (detect : Except String Int)
      (upstream : ApptPayload → Nat × String) (e : ParseErr),
      (truthy body.proposed_datetime = true ∧ truthy body.calendar_id = true ∧
        truthy body.lead_name = true ∧ truthy body.locationId = true ∧
        truthy body.contactId = true ∧ truthy (pyOr body.token authHeader) = true) →
      parse_human_datetime (pyStr body.proposed_datetime) = .error e →
      book_leadconnector_appointment pytzLocalize (some body) authHeader detect
          upstream = .parseError (errMessage e) ∧
      ∃ pre post, errMessage e = pre ++ pyStr body.proposed_datetime ++ post) ∧
    ∀ (pytz : PytzDB) (get_timezone_for_state : StateTable)
      (req : GetTimesRequest) (w : LCWorld) (now : Int) (ctz : Tz)
      (calls : List DepCall) (first : AwareDT) (restSlots : List AwareDT),
      truthy req.orgid = true → truthy req.state_code = true →
      truthy (pyOr req.token req.authHeader) = true →
      resolve_customer_timezone pytz get_timezone_for_state w req.contact_id
        req.location_id (pyStr req.state_code) = (.ok ctz, calls) →
      w.slotStatus = 200 → w.slotGroups.flatten = first :: restSlots →
      truthy req.requested_date_time = true →
      strptimeYMD (pyStr req.requested_date_time) = none →
      (handle_leadconnector_request pytz get_timezone_for_state req w now).1 =
        .raised (.valueError
          "requested_date_time must be in format YYYY-MM-DD HH:MM AM/PM") :=
  ⟨fun _ body authHeader detect upstream e hf hp =>
    book_parse_failure_is_client_error _ body authHeader detect upstream e hf hp,
   fun pytz st req w now ctz calls first restSlots h1 h2 h3 hres hs hne hreq hp =>
    get_times_parse_failure_raises pytz st req w now ctz calls first restSlots
      h1 h2 h3 hres hs hne hreq hp⟩

/-- C2, counterexample: a concrete get-available-times request whose
`requested_date_time` is rejected makes the handler raise the fixed-message
`ValueError` instead of returning a client-error response containing the
triggering text "garbage". -/
theorem get_times_rejection_not_client_error :
    (handle_leadconnector_request (fun _ => some (fixedTz 0))
        (fun _ => "America/Chicago")
        ⟨some "org", some "garbage", some "TX", some "cal", none, none,
          some "tok", none⟩
        ⟨404, none, 200, [[⟨0, 0⟩]]⟩ 0).1 =
      .raised (.valueError
        "requested_date_time must be in format YYYY-MM-DD HH:MM AM/PM") := by
  rfl

/-- Witness for `datetime_rejection_error_paths` at concrete inputs. -/
theorem datetime_rejection_error_paths_witness :
    (book_leadconnector_appointment (fun _ => ⟨0, 0⟩)
        (some ⟨some "hello", some "cal", some "Lead", some "loc", some "con",
          some "tok", none⟩) none (.ok 0) (fun _ => (200, "ok")) =
      .parseError (errMessage (.missingTimezone "hello")) ∧
      ∃ pre post, errMessage (ParseErr.missingTimezone "hello") =
        pre ++ pyStr (some "hello") ++ post) ∧
    (handle_leadconnector_request (fun _ => some (fixedTz 0))
        (fun _ => "America/Chicago")
        ⟨some "org", some "garbage", some "TX", some "cal", none, none,
          some "tok", none⟩
        ⟨404, none, 200, [[⟨0, 0⟩]]⟩ 0).1 =
      .raised (.valueError
        "requested_date_time must be in format YYYY-MM-DD HH:MM AM/PM") :=
  ⟨datetime_rejection_error_paths.1 _ _ _ _ _ _
      ⟨by decide, by decide, by decide, by decide, by decide, by decide⟩
      rfl,
   datetime_rejection_error_paths.2 _ _ _ _ 0 (fixedTz 0) [] ⟨0, 0⟩ []
      (by decide) (by decide) (by decide) rfl rfl rfl (by decide) (by decide)⟩
